import Mathlib

set_option maxHeartbeats 1600000

/-!
Shallow embedding of the GeoViews documentation notebook `doc/Geometries.ipynb`.

The repository consists of that single notebook: nine code cells interleaved
with markdown cells.  We embed the code cells as an abstract syntax tree of
the tiny Python fragment they use (imports, assignments, bare expression
statements, IPython magics; expressions are literals, names, attribute
accesses, calls with positional and keyword arguments, indexing, binary
operators, list literals and one enumerate-based dictionary comprehension).

The external libraries (pandas, holoviews, geoviews, cartopy) are not part of
the repository; their observable behaviour at the call sites the notebook
uses is modelled by an environment `Env`: which files exist, which geometries
`cf.LAND` yields, which records a shapefile contains and which rows a CSV
contains.  Geometries are abstracted to identifiers (`Nat`).  The interpreter
`runNotebook` executes the cells in order, threading bindings, a read-only
view of the filesystem and the list of displayed cell outputs, and surfaces
failures (missing file, out-of-bounds index, unbound name) as `Except`
errors, which is how exceptions of the underlying libraries are modelled.
-/

/-- A shapefile record as yielded by the cartopy shapereader: an abstract
geometry identifier plus an attribute table (e.g. the `code` attribute). -/
structure ShpRecord where
  geometry : Nat
  attrs : List (String × String)
deriving DecidableEq

/-- A row of a tabular dataset (CSV), as a column-name/value table. -/
abbrev Row := List (String × String)

mutual
/-- Expressions of the Python fragment used by the notebook cells. -/
inductive PyExpr where
  | strLit (s : String)
  | intLit (n : Nat)
  | name (x : String)
  | attr (base : PyExpr) (field : String)
  | call (callee : PyExpr) (args : PyArgs) (kwargs : PyKwargs)
  | index (base : PyExpr) (idx : PyExpr)
  | binop (op : String) (lhs rhs : PyExpr)
  | listLit (elems : PyArgs)
  /-- the comprehension `{k: body for k, v in enumerate(src)}` of cell 11 -/
  | dictCompEnum (keyVar elemVar : String) (src : PyExpr) (body : PyExpr)

/-- Positional argument lists. -/
inductive PyArgs where
  | nil
  | cons (head : PyExpr) (tail : PyArgs)

/-- Keyword argument lists. -/
inductive PyKwargs where
  | nil
  | cons (key : String) (val : PyExpr) (tail : PyKwargs)
end

/-- Statements of the Python fragment.  The notebook only contains imports,
assignments, bare expression statements and IPython magics; the remaining
constructors (function/class definitions, try/except, branching and loops)
are the statement forms Python would additionally offer — they are part of
the statement type so that their absence from the notebook is a meaningful,
checkable property, and the interpreter rejects them as unsupported. -/
inductive PyStmt where
  | imprt (module asName : String)
  | importFrom (module item asName : String)
  | assign (lhs : String) (rhs : PyExpr)
  | exprStmt (e : PyExpr)
  | magic (line : String)
  | funcDef (nm : String)
  | classDef (nm : String)
  | tryStmt
  | ifStmt
  | whileStmt
  | forStmt

/-- A notebook cell: code or markdown. -/
inductive Cell where
  | code (stmts : List PyStmt)
  | markdown (text : String)

/-- Path of the shapefile asset referenced by the notebook. -/
def bndPath : String := "./assets/boundaries/boundaries.shp"

/-- Path of the referendum CSV asset referenced by the notebook. -/
def refPath : String := "./assets/referendum.csv"

/-- Code cell 0: imports, `hv.notebook_extension()` and the output magic. -/
def cell0 : Cell := .code [
  .imprt "pandas" "pd",
  .imprt "numpy" "np",
  .imprt "holoviews" "hv",
  .imprt "geoviews" "gv",
  .imprt "cartopy" "cartopy",
  .importFrom "cartopy" "crs" "ccrs",
  .importFrom "cartopy" "feature" "cf",
  .exprStmt (.call (.attr (.name "hv") "notebook_extension") .nil .nil),
  .magic "%output dpi=120"]

/-- Code cell 4: wraps the three cartopy features and displays a layout. -/
def cell4 : Cell := .code [
  .magic "%opts Overlay [show_grid=False] Layout [hspace=0.2 sublabel_position=(-.15, .7)]",
  .assign "coasts" (.call (.attr (.name "gv") "Feature")
    (.cons (.attr (.name "cf") "COASTLINE") .nil) .nil),
  .assign "borders" (.call (.attr (.name "gv") "Feature")
    (.cons (.attr (.name "cf") "BORDERS") .nil) .nil),
  .assign "land" (.call (.attr (.name "gv") "Feature")
    (.cons (.attr (.name "cf") "LAND") .nil) .nil),
  .exprStmt (.binop "+" (.binop "+" (.name "land") (.name "borders"))
    (.call (.attr (.binop "*" (.name "land") (.name "borders")) "relabel")
      (.cons (.strLit "Overlay") .nil) .nil))]

/-- Code cell 7: materialises the LAND geometries and displays element 21. -/
def cell7 : Cell := .code [
  .assign "land_geoms" (.call (.name "list")
    (.cons (.call (.attr (.attr (.name "cf") "LAND") "geometries") .nil .nil) .nil) .nil),
  .exprStmt (.index (.name "land_geoms") (.intLit 21))]

/-- Code cell 9: wraps `land_geoms[21]` in a `gv.Shape`. -/
def cell9 : Cell := .code [
  .exprStmt (.call (.attr (.name "gv") "Shape")
    (.cons (.index (.name "land_geoms") (.intLit 21)) .nil)
    (.cons "crs" (.call (.attr (.name "ccrs") "PlateCarree") .nil .nil)
      (.cons "group" (.strLit "Australia") .nil)))]

/-- Code cell 11: the enumerate comprehension wrapped in `hv.NdOverlay`. -/
def cell11 : Cell := .code [
  .magic "%%opts NdOverlay [aspect=2]",
  .exprStmt (.call (.attr (.name "hv") "NdOverlay")
    (.cons (.dictCompEnum "i" "s" (.name "land_geoms")
      (.call (.attr (.name "gv") "Shape") (.cons (.name "s") .nil)
        (.cons "crs" (.call (.attr (.name "ccrs") "PlateCarree") .nil .nil) .nil))) .nil)
    .nil)]

/-- Code cell 13: binds the shapefile path and loads it with
`gv.Shape.from_shapefile`. -/
def cell13 : Cell := .code [
  .assign "shapefile" (.strLit bndPath),
  .exprStmt (.call (.attr (.attr (.name "gv") "Shape") "from_shapefile")
    (.cons (.name "shapefile") .nil)
    (.cons "crs" (.call (.attr (.name "ccrs") "PlateCarree") .nil .nil) .nil))]

/-- Code cell 15: opens the cartopy shapereader and displays record 0. -/
def cell15 : Cell := .code [
  .assign "shapes" (.call (.attr (.attr (.attr (.name "cartopy") "io") "shapereader") "Reader")
    (.cons (.name "shapefile") .nil) .nil),
  .exprStmt (.index (.call (.name "list")
    (.cons (.call (.attr (.name "shapes") "records") .nil .nil) .nil) .nil) (.intLit 0))]

/-- Code cell 17: loads the referendum CSV, wraps it in `hv.Dataset` and
displays the head of the underlying dataframe. -/
def cell17 : Cell := .code [
  .assign "referendum" (.call (.attr (.name "pd") "read_csv")
    (.cons (.strLit refPath) .nil) .nil),
  .assign "referendum" (.call (.attr (.name "hv") "Dataset")
    (.cons (.name "referendum") .nil) .nil),
  .exprStmt (.call (.attr (.attr (.name "referendum") "data") "head") .nil .nil)]

/-- Code cell 19: merges the shapefile records with the dataset on the
shared `code` attribute (the magic line sets the viridis colormap; written
here without the quote characters of the original). -/
def cell19 : Cell := .code [
  .magic "%%opts Shape (cmap=viridis)",
  .exprStmt (.call (.attr (.attr (.name "gv") "Shape") "from_records")
    (.cons (.call (.attr (.name "shapes") "records") .nil .nil) (.cons (.name "referendum") .nil))
    (.cons "on" (.strLit "code")
      (.cons "value" (.strLit "leaveVoteshare")
        (.cons "index" (.listLit (.cons (.strLit "name") (.cons (.strLit "regionName") .nil)))
          (.cons "crs" (.call (.attr (.name "ccrs") "PlateCarree") .nil .nil) .nil)))))]

/-- The cells of the notebook up to and including cell 15 (the inspection of
record 0), markdown cells included, in their order in the notebook. -/
def firstCells : List Cell := [
  cell0,
  .markdown "Cartopy and shapely make working with geometries and shapes very simple",
  .markdown "Feature",
  .markdown "The Feature Element provides a convenient means of overlaying geographic features",
  cell4,
  .markdown "Shape",
  .markdown "The Shape object wraps around any shapely geometry",
  cell7,
  .markdown "Instead of letting shapely render it as an SVG we wrap it in the shape object",
  cell9,
  .markdown "We can also iterate over the geometries and wrap them in an NdOverlay",
  cell11,
  .markdown "Here we load the boundaries of UK electoral districts from a shapefile",
  cell13,
  .markdown "To combine these shapes with data we inspect the records the shapereader loads",
  cell15]

/-- The remaining cells of the notebook (after the record inspection). -/
def lastCells : List Cell := [
  .markdown "The record contains a MultiPolygon together with a standard geographic code",
  cell17,
  .markdown "The from_records function optionally also supports merging records and dataset",
  cell19]

/-- All cells of the notebook, in order. -/
def notebookCells : List Cell := firstCells ++ lastCells

/-- Shape wrapper data: geometry, coordinate reference system, group label. -/
structure ShapeData where
  geometry : Nat
  crs : Option String
  group : Option String
deriving DecidableEq

/-- Runtime values of the interpreter.  Iterator values (`geomIter`,
`recordIter`) are distinguished from materialised lists: each call of
`cf.LAND.geometries()` or `Reader.records()` yields a fresh iterator over
the full underlying sequence, and `list(...)` materialises one. -/
inductive Value where
  | str (s : String)
  | intV (n : Nat)
  | pynone
  | cartoFeature (feat : String)
  | gvFeature (feat : String)
  | crsV (proj : String)
  | geom (g : Nat)
  | geomIter (gs : List Nat)
  | geomList (gs : List Nat)
  | shapeV (d : ShapeData)
  | dictV (entries : List (Nat × ShapeData))
  | ndoverlay (entries : List (Nat × ShapeData))
  | reader (path : String) (recs : List ShpRecord)
  | recordIter (recs : List ShpRecord)
  | recordList (recs : List ShpRecord)
  | record (r : ShpRecord)
  | dataframe (rows : List Row)
  | dataset (rows : List Row)
  | strList (ss : List String)
  | choropleth (items : List (ShpRecord × Row))
  | comboAdd (l r : Value)
  | comboMul (l r : Value)
  | labeled (label : String) (v : Value)

/-- Failure modes surfacing from the modelled libraries. -/
inductive PyError where
  | fileNotFound (path : String)
  | indexErr
  | nameErr (x : String)
  | typeErr
  | unsupported
  | depthErr
deriving DecidableEq

/-- The external world the notebook runs against: which files are present,
the geometries each cartopy feature yields, the records of each shapefile
and the rows of each CSV file. -/
structure Env where
  files : List String
  featureGeoms : String → List Nat
  shpRecords : String → List ShpRecord
  csv : String → List Row

/-- Interpreter state: variable bindings (newest first), the filesystem the
run sees (a list of present file paths), and the values displayed by bare
expression statements, in order. -/
structure ExecState where
  binds : List (String × Value)
  fs : List String
  outputs : List Value

/-- The dotted path of a name/attribute chain, e.g. `cartopy.io.shapereader.Reader`. -/
def pathOf : PyExpr → Option (List String)
  | .name x => some [x]
  | .attr b f => (pathOf b).map (· ++ [f])
  | _ => none

/-- Effectful map over a list, failing on the first error. -/
def mapME (g : α → Except PyError β) : List α → Except PyError (List β)
  | [] => .ok []
  | a :: l => do
    let b ← g a
    let bs ← mapME g l
    .ok (b :: bs)

/-- The merge performed by `gv.Shape.from_records` with an `on` argument:
each record is paired with the first dataset row whose `on`-column value
equals the record's `on`-attribute value; records without a matching row
are dropped. -/
def mergeOn (recs : List ShpRecord) (rows : List Row) (key : String) :
    List (ShpRecord × Row) :=
  recs.filterMap fun r =>
    (rows.find? (fun row => List.lookup key row == List.lookup key r.attrs)).map
      (fun row => (r, row))

/-- Expression evaluation, fueled by the nesting depth of the expression.
Calls into the external libraries are dispatched on the syntactic callee
path (the import aliases of cell 0 are resolved statically); methods on
values (`records`, `data.head`, `relabel`) are dispatched on the bound
value.  Expressions never modify the state. -/
def evalExpr : Nat → Env → ExecState → PyExpr → Except PyError Value
  | 0, _, _, _ => .error .depthErr
  | fuel+1, env, st, e =>
    match e with
    | .strLit s => .ok (.str s)
    | .intLit n => .ok (.intV n)
    | .name x =>
      match st.binds.lookup x with
      | some v => .ok v
      | none => .error (.nameErr x)
    | .attr b f =>
      if pathOf b = some ["cf"] then .ok (.cartoFeature f)
      else if f = "data" then do
        match ← evalExpr fuel env st b with
        | .dataset rows => .ok (.dataframe rows)
        | _ => .error .typeErr
      else .error .unsupported
    | .index be ie => do
      let bv ← evalExpr fuel env st be
      let iv ← evalExpr fuel env st ie
      match bv, iv with
      | .geomList gs, .intV n =>
        match gs.get? n with
        | some g => .ok (.geom g)
        | none => .error .indexErr
      | .recordList rs, .intV n =>
        match rs.get? n with
        | some r => .ok (.record r)
        | none => .error .indexErr
      | _, _ => .error .typeErr
    | .binop op le re => do
      let lv ← evalExpr fuel env st le
      let rv ← evalExpr fuel env st re
      if op = "+" then .ok (.comboAdd lv rv)
      else if op = "*" then .ok (.comboMul lv rv)
      else .error .unsupported
    | .listLit es =>
      match es with
      | .cons a (.cons b .nil) => do
        let av ← evalExpr fuel env st a
        let bv ← evalExpr fuel env st b
        match av, bv with
        | .str s1, .str s2 => .ok (.strList [s1, s2])
        | _, _ => .error .typeErr
      | _ => .error .unsupported
    | .dictCompEnum kv ev se be => do
      match ← evalExpr fuel env st se with
      | .geomList gs => do
        let entries ← mapME (fun q =>
          match q with
          | (idx, g) => do
            match ← evalExpr fuel env
                { st with binds := (ev, Value.geom g) :: (kv, Value.intV idx) :: st.binds } be with
            | .shapeV d => .ok ((idx, d) : Nat × ShapeData)
            | _ => .error .typeErr) gs.enum
        .ok (.dictV entries)
      | _ => .error .typeErr
    | .call f as ks =>
      match pathOf f with
      | none =>
        match f, as, ks with
        | .attr bb meth, .cons le .nil, .nil =>
          if meth = "relabel" then do
            let lv ← evalExpr fuel env st le
            let bv ← evalExpr fuel env st bb
            match lv with
            | .str s => .ok (.labeled s bv)
            | _ => .error .typeErr
          else .error .unsupported
        | _, _, _ => .error .unsupported
      | some p =>
        match as, ks with
        | .nil, .nil =>
          if p = ["hv", "notebook_extension"] then .ok .pynone
          else if p = ["ccrs", "PlateCarree"] then .ok (.crsV "PlateCarree")
          else
            match p with
            | [a, b, c] =>
              if a = "cf" ∧ c = "geometries" then .ok (.geomIter (env.featureGeoms b))
              else if b = "data" ∧ c = "head" then
                match st.binds.lookup a with
                | some (.dataset rows) => .ok (.dataframe (rows.take 5))
                | some _ => .error .typeErr
                | none => .error (.nameErr a)
              else .error .unsupported
            | [a, b] =>
              if b = "records" then
                match st.binds.lookup a with
                | some (.reader _ rs) => .ok (.recordIter rs)
                | some _ => .error .typeErr
                | none => .error (.nameErr a)
              else .error .unsupported
            | _ => .error .unsupported
        | .cons ae .nil, .nil =>
          if p = ["gv", "Feature"] then do
            match ← evalExpr fuel env st ae with
            | .cartoFeature n => .ok (.gvFeature n)
            | _ => .error .typeErr
          else if p = ["list"] then do
            match ← evalExpr fuel env st ae with
            | .geomIter gs => .ok (.geomList gs)
            | .recordIter rs => .ok (.recordList rs)
            | _ => .error .typeErr
          else if p = ["hv", "NdOverlay"] then do
            match ← evalExpr fuel env st ae with
            | .dictV entries => .ok (.ndoverlay entries)
            | _ => .error .typeErr
          else if p = ["cartopy", "io", "shapereader", "Reader"] then do
            match ← evalExpr fuel env st ae with
            | .str pa =>
              if pa ∈ st.fs then .ok (.reader pa (env.shpRecords pa))
              else .error (.fileNotFound pa)
            | _ => .error .typeErr
          else if p = ["pd", "read_csv"] then do
            match ← evalExpr fuel env st ae with
            | .str pa =>
              if pa ∈ st.fs then .ok (.dataframe (env.csv pa))
              else .error (.fileNotFound pa)
            | _ => .error .typeErr
          else if p = ["hv", "Dataset"] then do
            match ← evalExpr fuel env st ae with
            | .dataframe rows => .ok (.dataset rows)
            | _ => .error .typeErr
          else .error .unsupported
        | .cons ae .nil, .cons k1 ce .nil =>
          if p = ["gv", "Shape"] ∧ k1 = "crs" then do
            let av ← evalExpr fuel env st ae
            let cv ← evalExpr fuel env st ce
            match av, cv with
            | .geom g, .crsV c => .ok (.shapeV ⟨g, some c, none⟩)
            | _, _ => .error .typeErr
          else if p = ["gv", "Shape", "from_shapefile"] ∧ k1 = "crs" then do
            let pv ← evalExpr fuel env st ae
            let cv ← evalExpr fuel env st ce
            match pv, cv with
            | .str pa, .crsV c =>
              if pa ∈ st.fs then
                .ok (.ndoverlay ((((env.shpRecords pa).map ShpRecord.geometry).enum).map
                  (fun q => (q.1, ⟨q.2, some c, none⟩))))
              else .error (.fileNotFound pa)
            | _, _ => .error .typeErr
          else .error .unsupported
        | .cons ae .nil, .cons k1 ce (.cons k2 ge .nil) =>
          if p = ["gv", "Shape"] ∧ k1 = "crs" ∧ k2 = "group" then do
            let av ← evalExpr fuel env st ae
            let cv ← evalExpr fuel env st ce
            let gv2 ← evalExpr fuel env st ge
            match av, cv, gv2 with
            | .geom g, .crsV c, .str grp => .ok (.shapeV ⟨g, some c, some grp⟩)
            | _, _, _ => .error .typeErr
          else .error .unsupported
        | .cons re (.cons de .nil),
            .cons k1 oe (.cons k2 ve (.cons k3 ie (.cons k4 ce .nil))) =>
          if p = ["gv", "Shape", "from_records"] ∧ k1 = "on" ∧ k2 = "value" ∧
              k3 = "index" ∧ k4 = "crs" then do
            let rv ← evalExpr fuel env st re
            let dv ← evalExpr fuel env st de
            let ov ← evalExpr fuel env st oe
            let vv ← evalExpr fuel env st ve
            let iv ← evalExpr fuel env st ie
            let cv ← evalExpr fuel env st ce
            match rv, dv, ov, vv, iv, cv with
            | .recordIter rs, .dataset rows, .str k, .str _, .strList _, .crsV _ =>
              .ok (.choropleth (mergeOn rs rows k))
            | _, _, _, _, _, _ => .error .typeErr
          else .error .unsupported
        | _, _ => .error .unsupported

/-- Fuel bound: the notebook's expressions nest no deeper than this. -/
def FUEL : Nat := 20

/-- Statement execution: imports and magics are no-ops for the state,
assignments extend the bindings, bare expressions append their value to the
displayed outputs.  Statement forms the notebook does not contain are
rejected. -/
def execStmt (env : Env) (st : ExecState) : PyStmt → Except PyError ExecState
  | .imprt _ _ => .ok st
  | .importFrom _ _ _ => .ok st
  | .magic _ => .ok st
  | .assign x e => do
    let v ← evalExpr FUEL env st e
    .ok { st with binds := (x, v) :: st.binds }
  | .exprStmt e => do
    let v ← evalExpr FUEL env st e
    .ok { st with outputs := st.outputs ++ [v] }
  | .funcDef _ => .error .unsupported
  | .classDef _ => .error .unsupported
  | .tryStmt => .error .unsupported
  | .ifStmt => .error .unsupported
  | .whileStmt => .error .unsupported
  | .forStmt => .error .unsupported

/-- Sequential execution of a cell's statements, stopping at the first
error (an uncaught exception aborts the evaluation). -/
def execStmts (env : Env) (st : ExecState) : List PyStmt → Except PyError ExecState
  | [] => .ok st
  | s :: ss => do
    let st2 ← execStmt env st s
    execStmts env st2 ss

/-- Execution of one cell; markdown cells do nothing. -/
def execCell (env : Env) (st : ExecState) : Cell → Except PyError ExecState
  | .markdown _ => .ok st
  | .code ss => execStmts env st ss

/-- Sequential execution of a list of cells. -/
def execCells (env : Env) (st : ExecState) : List Cell → Except PyError ExecState
  | [] => .ok st
  | c :: cs => do
    let st2 ← execCell env st c
    execCells env st2 cs

/-- Initial state: no bindings, the filesystem of the environment, no outputs. -/
def initState (env : Env) : ExecState := ⟨[], env.files, []⟩

/-- Evaluates the whole notebook, cell by cell, in the given environment. -/
def runNotebook (env : Env) : Except PyError ExecState :=
  execCells env (initState env) notebookCells

/-! ### Structural views of the notebook source -/

mutual
/-- All string literals occurring in an expression, in source order. -/
def stringsE : PyExpr → List String
  | .strLit s => [s]
  | .intLit _ => []
  | .name _ => []
  | .attr b _ => stringsE b
  | .call f as ks => stringsE f ++ stringsA as ++ stringsK ks
  | .index b i => stringsE b ++ stringsE i
  | .binop _ l r => stringsE l ++ stringsE r
  | .listLit es => stringsA es
  | .dictCompEnum _ _ s b => stringsE s ++ stringsE b

/-- String literals of a positional-argument list. -/
def stringsA : PyArgs → List String
  | .nil => []
  | .cons e t => stringsE e ++ stringsA t

/-- String literals of a keyword-argument list. -/
def stringsK : PyKwargs → List String
  | .nil => []
  | .cons _ v t => stringsE v ++ stringsK t
end

/-- The callee of a call, as a dotted path when it is a name/attribute
chain, or as the bare method name when it is a method on a computed value
(like `.relabel`). -/
def calleeTag (f : PyExpr) : List (List String) :=
  match pathOf f with
  | some p => [p]
  | none =>
    match f with
    | .attr _ m => [[m]]
    | _ => []

mutual
/-- The callee paths of all calls occurring in an expression (the
enumerate-based comprehension contributes its implicit `enumerate` call). -/
def callsE : PyExpr → List (List String)
  | .strLit _ => []
  | .intLit _ => []
  | .name _ => []
  | .attr b _ => callsE b
  | .call f as ks => calleeTag f ++ callsE f ++ callsA as ++ callsK ks
  | .index b i => callsE b ++ callsE i
  | .binop _ l r => callsE l ++ callsE r
  | .listLit es => callsA es
  | .dictCompEnum _ _ s b => [["enumerate"]] ++ callsE s ++ callsE b

/-- Callee paths in a positional-argument list. -/
def callsA : PyArgs → List (List String)
  | .nil => []
  | .cons e t => callsE e ++ callsA t

/-- Callee paths in a keyword-argument list. -/
def callsK : PyKwargs → List (List String)
  | .nil => []
  | .cons _ v t => callsE v ++ callsK t
end

mutual
/-- All calls of an expression together with their keyword arguments. -/
def kcallsE : PyExpr → List (List String × PyKwargs)
  | .strLit _ => []
  | .intLit _ => []
  | .name _ => []
  | .attr b _ => kcallsE b
  | .call f as ks =>
    (calleeTag f).map (fun p => (p, ks)) ++ kcallsE f ++ kcallsA as ++ kcallsK ks
  | .index b i => kcallsE b ++ kcallsE i
  | .binop _ l r => kcallsE l ++ kcallsE r
  | .listLit es => kcallsA es
  | .dictCompEnum _ _ s b => kcallsE s ++ kcallsE b

/-- Calls with keyword arguments in a positional-argument list. -/
def kcallsA : PyArgs → List (List String × PyKwargs)
  | .nil => []
  | .cons e t => kcallsE e ++ kcallsA t

/-- Calls with keyword arguments in a keyword-argument list. -/
def kcallsK : PyKwargs → List (List String × PyKwargs)
  | .nil => []
  | .cons _ v t => kcallsE v ++ kcallsK t
end

/-- String literals of a statement. -/
def stringsS : PyStmt → List String
  | .assign _ e => stringsE e
  | .exprStmt e => stringsE e
  | _ => []

/-- Callee paths of a statement. -/
def callsS : PyStmt → List (List String)
  | .assign _ e => callsE e
  | .exprStmt e => callsE e
  | _ => []

/-- Calls with keyword arguments of a statement. -/
def kcallsS : PyStmt → List (List String × PyKwargs)
  | .assign _ e => kcallsE e
  | .exprStmt e => kcallsE e
  | _ => []

/-- The statements of a cell (markdown cells have none). -/
def cellStmts : Cell → List PyStmt
  | .code ss => ss
  | .markdown _ => []

/-- All statements of the notebook, in evaluation order. -/
def notebookStmts : List PyStmt := notebookCells.flatMap cellStmts

/-- All string literals of the notebook. -/
def notebookStrings : List String := notebookStmts.flatMap stringsS

/-- All callee paths of the notebook. -/
def notebookCalls : List (List String) := notebookStmts.flatMap callsS

/-- All calls of the notebook with their keyword arguments. -/
def notebookKcalls : List (List String × PyKwargs) := notebookStmts.flatMap kcallsS

/-- Does a string start with the two characters dot, slash — i.e. does it
denote a local file path? -/
def isLocalPath (s : String) : Bool :=
  match s.data with
  | '.' :: '/' :: _ => true
  | _ => false

/-- The string literals of the notebook that denote local file paths. -/
def assetStrings : List String := notebookStrings.filter isLocalPath

/-- Syntactic lookup in a keyword-argument list. -/
def kwLookup : PyKwargs → String → Option PyExpr
  | .nil, _ => none
  | .cons k v t, key => if k == key then some v else kwLookup t key

/-- Does an optional expression syntactically equal the string literal `code`? -/
def isStrLitCode : Option PyExpr → Bool
  | some (.strLit s) => s == "code"
  | _ => false

/-- The `from_records` calls of the notebook. -/
def fromRecordsCalls : List (List String × PyKwargs) :=
  notebookKcalls.filter (fun pc => pc.1 == ["gv", "Shape", "from_records"])

/-- Import aliases bound by the notebook's import statements. -/
def aliasOf : PyStmt → List String
  | .imprt _ a => [a]
  | .importFrom _ _ a => [a]
  | _ => []

/-- All import aliases of the notebook. -/
def importedAliases : List String := notebookStmts.flatMap aliasOf

/-- Is a callee path rooted in one of the notebook's import aliases, i.e.
a direct reference into an external library? -/
def externallyRooted (p : List String) : Bool :=
  match p with
  | r :: _ => importedAliases.contains r
  | [] => false

/-- The calls realising the operations named by the specification: geometry
iteration, shapefile reading, CRS projection, record/dataset merging, and
the wrapper constructions whose display renders the choropleth. -/
def operationCalls : List (List String) :=
  [["cf", "LAND", "geometries"], ["gv", "Shape", "from_shapefile"],
   ["cartopy", "io", "shapereader", "Reader"], ["ccrs", "PlateCarree"],
   ["gv", "Shape", "from_records"], ["gv", "Shape"], ["gv", "Feature"],
   ["hv", "NdOverlay"]]

/-- Does the notebook define any function or class? -/
def definesFuncOrClass : Bool :=
  notebookStmts.any fun s =>
    match s with
    | .funcDef _ => true
    | .classDef _ => true
    | _ => false

/-- Does a statement contain a `try`/`except` construct? -/
def isTryStmt : PyStmt → Bool
  | .tryStmt => true
  | _ => false

/-- Is a statement straight-line code (no branching, looping, definition
or exception-handling construct)? -/
def straightLine : PyStmt → Bool
  | .funcDef _ => false
  | .classDef _ => false
  | .tryStmt => false
  | .ifStmt => false
  | .whileStmt => false
  | .forStmt => false
  | _ => true

/-- Method/function name components that would indicate writing to the
filesystem or another external sink. -/
def writeNames : List String :=
  ["open", "write", "to_csv", "to_file", "to_pickle", "to_parquet", "savefig",
   "save", "dump", "mkdir", "remove", "rename"]

/-- Name components that would indicate concurrency primitives. -/
def concurrencyNames : List String :=
  ["threading", "Thread", "asyncio", "async", "await", "multiprocessing",
   "Process", "Pool", "concurrent", "futures", "submit", "gather", "Lock",
   "spawn", "fork"]

/-! #### Claim C5: the spec's cell-category predicates -/

/-- The head callee path of an expression, when it is a call. -/
def rhsCallPath : PyExpr → Option (List String)
  | .call f _ _ => pathOf f
  | _ => none

/-- The constructors of wrapper objects around library-provided geometries
(`Feature`, `Shape` and the overlay of shapes). -/
def wrapperHeads : List (List String) :=
  [["gv", "Feature"], ["gv", "Shape"], ["gv", "Shape", "from_shapefile"],
   ["gv", "Shape", "from_records"], ["hv", "NdOverlay"]]

/-- Claim category (a): the statement imports an external library. -/
def isImportStmt : PyStmt → Bool
  | .imprt _ _ => true
  | .importFrom _ _ _ => true
  | _ => false

/-- Claim category (b): the statement constructs a wrapper object around
library-provided geometries. -/
def buildsGeomWrapper : PyStmt → Bool
  | .assign _ e => (rhsCallPath e).elim false (wrapperHeads.contains ·)
  | .exprStmt e => (rhsCallPath e).elim false (wrapperHeads.contains ·)
  | _ => false

/-- Claim category (c): the statement renders — a bare expression statement
(whose value the notebook displays) or a plot-option/display magic. -/
def rendersStmt : PyStmt → Bool
  | .exprStmt _ => true
  | .magic _ => true
  | _ => false

/-- The three cell activities named by the claim. -/
def claimCatC5 (s : PyStmt) : Bool :=
  isImportStmt s || buildsGeomWrapper s || rendersStmt s

/-- The additional activity the notebook actually contains: binding to a
variable an asset path literal or data loaded through a library call. -/
def bindsLoadedData : PyStmt → Bool
  | .assign _ (.strLit _) => true
  | .assign _ (.call _ _ _) => true
  | _ => false

/-- The statement the C5 counterexample exhibits: loading the referendum
CSV into a variable (first statement of cell 17). -/
def readCsvStmt : PyStmt :=
  .assign "referendum" (.call (.attr (.name "pd") "read_csv")
    (.cons (.strLit refPath) .nil) .nil)

/-! ### Expected states of successful runs -/

/-- The LAND geometries of an environment. -/
def landL (env : Env) : List Nat := env.featureGeoms "LAND"

/-- The records of the boundaries shapefile. -/
def recsB (env : Env) : List ShpRecord := env.shpRecords bndPath

/-- The rows of the referendum CSV. -/
def rowsR (env : Env) : List Row := env.csv refPath

/-- The body of the cell 11 comprehension. -/
def cell11Body : PyExpr :=
  .call (.attr (.name "gv") "Shape") (.cons (.name "s") .nil)
    (.cons "crs" (.call (.attr (.name "ccrs") "PlateCarree") .nil .nil) .nil)

/-- The geometry the notebook selects as `land_geoms[21]` (Australia). -/
def landAt (env : Env) : Nat := (landL env).getD 21 0

/-- The first record of the boundaries shapefile. -/
def recAt0 (env : Env) : ShpRecord := (recsB env).getD 0 ⟨0, []⟩

/-- The overlay entries produced by wrapping each geometry of `gs`,
keyed by its position. -/
def shapeEntries (gs : List Nat) : List (Nat × ShapeData) :=
  gs.enum.map fun q => (q.1, ⟨q.2, some "PlateCarree", none⟩)

/-- The displayed output of cell 4. -/
def out4 : Value :=
  .comboAdd (.comboAdd (.gvFeature "LAND") (.gvFeature "BORDERS"))
    (.labeled "Overlay" (.comboMul (.gvFeature "LAND") (.gvFeature "BORDERS")))

/-- The bindings after cell 4. -/
def binds4 : List (String × Value) :=
  [("land", .gvFeature "LAND"), ("borders", .gvFeature "BORDERS"),
   ("coasts", .gvFeature "COASTLINE")]

/-- The bindings after cell 15. -/
def binds15 (env : Env) : List (String × Value) :=
  ("shapes", .reader bndPath (recsB env)) :: ("shapefile", .str bndPath)
    :: ("land_geoms", .geomList (landL env)) :: binds4

/-- The state after evaluating the cells up to and including cell 15. -/
def st16 (env : Env) : ExecState :=
  ⟨binds15 env, env.files,
   [.pynone, out4, .geom (landAt env),
    .shapeV ⟨landAt env, some "PlateCarree", some "Australia"⟩,
    .ndoverlay (shapeEntries (landL env)),
    .ndoverlay (shapeEntries ((recsB env).map ShpRecord.geometry)),
    .record (recAt0 env)]⟩

/-- The final state of a successful full run. -/
def stFinal (env : Env) : ExecState :=
  ⟨("referendum", .dataset (rowsR env)) :: ("referendum", .dataframe (rowsR env))
     :: binds15 env, env.files,
   [.pynone, out4, .geom (landAt env),
    .shapeV ⟨landAt env, some "PlateCarree", some "Australia"⟩,
    .ndoverlay (shapeEntries (landL env)),
    .ndoverlay (shapeEntries ((recsB env).map ShpRecord.geometry)),
    .record (recAt0 env),
    .dataframe ((rowsR env).take 5),
    .choropleth (mergeOn (recsB env) (rowsR env) "code")]⟩

/-- Cell 15 with the inspection statement (the display of record 0)
removed, keeping only the `Reader` assignment. -/
def cell15NoInspect : Cell :=
  .code [.assign "shapes" (.call (.attr (.attr (.attr (.name "cartopy") "io") "shapereader") "Reader")
    (.cons (.name "shapefile") .nil) .nil)]

/-- The notebook with the inspection statement of cell 15 (the display of
record 0) removed, leaving only the `Reader` assignment there. -/
def notebookCellsNoInspect : List Cell :=
  [cell0,
   .markdown "Cartopy and shapely make working with geometries and shapes very simple",
   .markdown "Feature",
   .markdown "The Feature Element provides a convenient means of overlaying geographic features",
   cell4,
   .markdown "Shape",
   .markdown "The Shape object wraps around any shapely geometry",
   cell7,
   .markdown "Instead of letting shapely render it as an SVG we wrap it in the shape object",
   cell9,
   .markdown "We can also iterate over the geometries and wrap them in an NdOverlay",
   cell11,
   .markdown "Here we load the boundaries of UK electoral districts from a shapefile",
   cell13,
   .markdown "To combine these shapes with data we inspect the records the shapereader loads",
   cell15NoInspect,
   .markdown "The record contains a MultiPolygon together with a standard geographic code",
   cell17,
   .markdown "The from_records function optionally also supports merging records and dataset",
   cell19]

/-- Evaluates the notebook without the record-inspection statement. -/
def runNoInspect (env : Env) : Except PyError ExecState :=
  execCells env (initState env) notebookCellsNoInspect

/-- The inspection statement of cell 15: `list(shapes.records())[0]`. -/
def inspectStmt : PyStmt :=
  .exprStmt (.index (.call (.name "list")
    (.cons (.call (.attr (.name "shapes") "records") .nil .nil) .nil) .nil) (.intLit 0))

/-- The expression `shapes.records()`. -/
def recordsCallExpr : PyExpr :=
  .call (.attr (.name "shapes") "records") .nil .nil

/-- The final state of a successful run without the inspection statement:
the same bindings, and the same outputs except the displayed record. -/
def stFinalNI (env : Env) : ExecState :=
  ⟨("referendum", .dataset (rowsR env)) :: ("referendum", .dataframe (rowsR env))
     :: binds15 env, env.files,
   [.pynone, out4, .geom (landAt env),
    .shapeV ⟨landAt env, some "PlateCarree", some "Australia"⟩,
    .ndoverlay (shapeEntries (landL env)),
    .ndoverlay (shapeEntries ((recsB env).map ShpRecord.geometry)),
    .dataframe ((rowsR env).take 5),
    .choropleth (mergeOn (recsB env) (rowsR env) "code")]⟩

/-- The full comprehension expression of cell 11. -/
def cell11Comp : PyExpr := .dictCompEnum "i" "s" (.name "land_geoms") cell11Body

/-- The full `hv.NdOverlay` expression of cell 11. -/
def cell11Expr : PyExpr :=
  .call (.attr (.name "hv") "NdOverlay") (.cons cell11Comp .nil) .nil

/-! ### Concrete environments for witnesses and counterexamples -/

/-- A well-stocked environment: both assets present, 25 LAND geometries,
one shapefile record and one matching CSV row. -/
def envW : Env :=
  { files := [bndPath, refPath]
    featureGeoms := fun _ => List.range 25
    shpRecords := fun _ => [⟨100, [("code", "A1"), ("name", "X"), ("regionName", "Y")]⟩]
    csv := fun _ => [[("code", "A1"), ("leaveVoteshare", "60.2")]] }

/-- An environment where both asset files are present but `cf.LAND` yields
no geometries, so `land_geoms[21]` is out of bounds. -/
def envCex : Env :=
  { files := [bndPath, refPath]
    featureGeoms := fun _ => []
    shpRecords := fun _ => [⟨0, [("code", "A1")]⟩]
    csv := fun _ => [[("code", "A1"), ("leaveVoteshare", "60.2")]] }

/-- An environment where the shapefile asset is missing. -/
def envNoShp : Env :=
  { files := [refPath]
    featureGeoms := fun _ => List.range 25
    shpRecords := fun _ => [⟨100, [("code", "A1")]⟩]
    csv := fun _ => [[("code", "A1"), ("leaveVoteshare", "60.2")]] }

/-- An environment where the referendum CSV asset is missing. -/
def envNoCsv : Env :=
  { files := [bndPath]
    featureGeoms := fun _ => List.range 25
    shpRecords := fun _ => [⟨100, [("code", "A1")]⟩]
    csv := fun _ => [] }

/-- A concrete interpreter state with the bindings the witness statements
need: a two-element geometry list, a reader and a dataset. -/
def stW : ExecState :=
  ⟨[("land_geoms", .geomList [5, 7]),
    ("shapes", .reader bndPath [⟨3, [("code", "A1")]⟩]),
    ("referendum", .dataset [[("code", "A1")]])], [bndPath, refPath], []⟩

/-! ### Helper lemmas -/

set_option maxRecDepth 8000

theorem exbind_ok (a : α) (f : α → Except PyError β) :
    (Except.ok a >>= f) = f a := rfl

theorem exbind_err (e : PyError) (f : α → Except PyError β) :
    ((Except.error e : Except PyError α) >>= f) = .error e := rfl

theorem getElem?_eq_some_getD (l : List α) (n : Nat) (d : α) (h : n < l.length) :
    l[n]? = some (l.getD n d) := by
  simp [List.getD, List.getElem?_eq_getElem h]

theorem mapME_pure (g : α → β) (l : List α) :
    mapME (fun a => (Except.ok (g a) : Except PyError β)) l = .ok (l.map g) := by
  induction l with
  | nil => rfl
  | cons a t ih => simp [mapME, ih, exbind_ok]

theorem comp_body_eval (fz : Nat) (env : Env) (st : ExecState) (i g : Nat) :
    evalExpr (fz + 2) env
      { st with binds := ("s", Value.geom g) :: ("i", Value.intV i) :: st.binds }
      cell11Body = .ok (.shapeV ⟨g, some "PlateCarree", none⟩) := by
  simp [cell11Body, evalExpr, pathOf, exbind_ok, List.lookup]

theorem execCells_cons (env : Env) (st : ExecState) (c : Cell) (cs : List Cell) :
    execCells env st (c :: cs)
      = (execCell env st c) >>= fun st2 => execCells env st2 cs := rfl

theorem execCells_nil (env : Env) (st : ExecState) :
    execCells env st [] = .ok st := rfl

theorem execCell_md (env : Env) (st : ExecState) (s : String) :
    execCell env st (.markdown s) = .ok st := rfl

theorem execCells_append (env : Env) (st : ExecState) (l1 l2 : List Cell) :
    execCells env st (l1 ++ l2)
      = (execCells env st l1) >>= fun s2 => execCells env s2 l2 := by
  induction l1 generalizing st with
  | nil => rfl
  | cons c t ih =>
    simp only [List.cons_append, execCells_cons, ih]
    cases execCell env st c <;> rfl

/-- Cell 0 appends the (None) result of `hv.notebook_extension()`. -/
theorem stepCell0 (env : Env) (st : ExecState) :
    execCell env st cell0 = .ok { st with outputs := st.outputs ++ [Value.pynone] } := by
  simp [cell0, execCell, execStmts, execStmt, evalExpr, FUEL, exbind_ok, pathOf]

/-- Cell 4 binds the three features and displays the layout. -/
theorem stepCell4 (env : Env) (st : ExecState) :
    execCell env st cell4 = .ok { st with
      binds := ("land", .gvFeature "LAND") :: ("borders", .gvFeature "BORDERS")
        :: ("coasts", .gvFeature "COASTLINE") :: st.binds,
      outputs := st.outputs ++ [out4] } := by
  simp [cell4, execCell, execStmts, execStmt, evalExpr, FUEL, exbind_ok, pathOf,
    List.lookup, out4]

/-- Cell 7 binds the LAND geometry list and displays element 21 when that
index is in bounds. -/
theorem stepCell7 (env : Env) (st : ExecState) (g : Nat)
    (h : (landL env)[21]? = some g) :
    execCell env st cell7 = .ok { st with
      binds := ("land_geoms", .geomList (landL env)) :: st.binds,
      outputs := st.outputs ++ [Value.geom g] } := by
  simp only [landL] at h
  simp [cell7, execCell, execStmts, execStmt, evalExpr, FUEL, exbind_ok, pathOf,
    List.lookup, landL, h]

/-- Cell 7 raises an IndexError when `cf.LAND` yields at most 21 geometries. -/
theorem stepCell7_fail (env : Env) (st : ExecState)
    (h : (landL env)[21]? = none) :
    execCell env st cell7 = .error .indexErr := by
  simp only [landL] at h
  simp [cell7, execCell, execStmts, execStmt, evalExpr, FUEL, exbind_ok, exbind_err,
    pathOf, List.lookup, h]

/-- Cell 9 wraps `land_geoms[21]` in a Shape with the Australia group. -/
theorem stepCell9 (env : Env) (st : ExecState) (gs : List Nat) (g : Nat)
    (hb : st.binds.lookup "land_geoms" = some (.geomList gs))
    (h : gs[21]? = some g) :
    execCell env st cell9 = .ok { st with
      outputs := st.outputs ++ [Value.shapeV ⟨g, some "PlateCarree", some "Australia"⟩] } := by
  simp [cell9, execCell, execStmts, execStmt, evalExpr, FUEL, exbind_ok, pathOf, hb, h]

/-- Cell 11 displays the NdOverlay of all wrapped geometries. -/
theorem stepCell11 (env : Env) (st : ExecState) (gs : List Nat)
    (hb : st.binds.lookup "land_geoms" = some (.geomList gs)) :
    execCell env st cell11 = .ok { st with
      outputs := st.outputs ++ [Value.ndoverlay (shapeEntries gs)] } := by
  have hbody := comp_body_eval 16 env st
  simp [cell11, execCell, execStmts, execStmt, evalExpr, FUEL, exbind_ok, pathOf,
    hb, cell11Body] at hbody ⊢
  simp [hbody, mapME_pure, shapeEntries, exbind_ok]

/-- Cell 13 binds the shapefile path and displays its shapes when the
shapefile is present. -/
theorem stepCell13 (env : Env) (st : ExecState) (hfs : bndPath ∈ st.fs) :
    execCell env st cell13 = .ok { st with
      binds := ("shapefile", .str bndPath) :: st.binds,
      outputs := st.outputs ++
        [Value.ndoverlay (shapeEntries ((env.shpRecords bndPath).map ShpRecord.geometry))] } := by
  simp [cell13, execCell, execStmts, execStmt, evalExpr, FUEL, exbind_ok, pathOf,
    List.lookup, hfs, shapeEntries]

/-- Cell 13 raises FileNotFound when the shapefile is missing. -/
theorem stepCell13_fail (env : Env) (st : ExecState) (hfs : bndPath ∉ st.fs) :
    execCell env st cell13 = .error (.fileNotFound bndPath) := by
  simp [cell13, execCell, execStmts, execStmt, evalExpr, FUEL, exbind_ok, exbind_err,
    pathOf, List.lookup, hfs]

/-- Cell 15 binds the reader and displays record 0 when it exists. -/
theorem stepCell15 (env : Env) (st : ExecState) (r0 : ShpRecord)
    (hb : st.binds.lookup "shapefile" = some (.str bndPath))
    (hfs : bndPath ∈ st.fs)
    (hr : (env.shpRecords bndPath)[0]? = some r0) :
    execCell env st cell15 = .ok { st with
      binds := ("shapes", .reader bndPath (env.shpRecords bndPath)) :: st.binds,
      outputs := st.outputs ++ [Value.record r0] } := by
  simp [cell15, execCell, execStmts, execStmt, evalExpr, FUEL, exbind_ok, pathOf,
    List.lookup, hb, hfs, hr]

/-- Cell 15 raises an IndexError when the shapefile yields no records. -/
theorem stepCell15_fail (env : Env) (st : ExecState)
    (hb : st.binds.lookup "shapefile" = some (.str bndPath))
    (hfs : bndPath ∈ st.fs)
    (hr : (env.shpRecords bndPath)[0]? = none) :
    execCell env st cell15 = .error .indexErr := by
  simp [cell15, execCell, execStmts, execStmt, evalExpr, FUEL, exbind_ok, exbind_err,
    pathOf, List.lookup, hb, hfs, hr]

/-- Cell 17 binds the referendum dataset and displays the dataframe head
when the CSV is present. -/
theorem stepCell17 (env : Env) (st : ExecState) (hfs : refPath ∈ st.fs) :
    execCell env st cell17 = .ok { st with
      binds := ("referendum", .dataset (env.csv refPath))
        :: ("referendum", .dataframe (env.csv refPath)) :: st.binds,
      outputs := st.outputs ++ [Value.dataframe ((env.csv refPath).take 5)] } := by
  simp [cell17, execCell, execStmts, execStmt, evalExpr, FUEL, exbind_ok, pathOf,
    List.lookup, hfs]

/-- Cell 17 raises FileNotFound when the CSV is missing. -/
theorem stepCell17_fail (env : Env) (st : ExecState) (hfs : refPath ∉ st.fs) :
    execCell env st cell17 = .error (.fileNotFound refPath) := by
  simp [cell17, execCell, execStmts, execStmt, evalExpr, FUEL, exbind_ok, exbind_err,
    pathOf, List.lookup, hfs]

/-- Cell 19 displays the choropleth merging records and dataset on `code`. -/
theorem stepCell19 (env : Env) (st : ExecState) (rs : List ShpRecord)
    (rws : List Row) (p : String)
    (hs : st.binds.lookup "shapes" = some (.reader p rs))
    (hd : st.binds.lookup "referendum" = some (.dataset rws)) :
    execCell env st cell19 = .ok { st with
      outputs := st.outputs ++ [Value.choropleth (mergeOn rs rws "code")] } := by
  simp [cell19, execCell, execStmts, execStmt, evalExpr, FUEL, exbind_ok, pathOf,
    List.lookup, hs, hd]

/-- Element 21 of the LAND geometry list, when it has at least 22 elements. -/
theorem landAt_elem (env : Env) (h22 : 22 ≤ (landL env).length) :
    (landL env)[21]? = some (landAt env) :=
  getElem?_eq_some_getD (landL env) 21 0 (by omega)

/-- Record 0 of the boundaries shapefile, when it has at least one record. -/
theorem recAt0_elem (env : Env) (h1 : 1 ≤ (recsB env).length) :
    (recsB env)[0]? = some (recAt0 env) :=
  getElem?_eq_some_getD (recsB env) 0 ⟨0, []⟩ (by omega)

set_option maxRecDepth 20000 in
/-- Successful evaluation of the cells up to and including cell 15. -/
theorem run16_ok (env : Env) (hB : bndPath ∈ env.files)
    (h22 : 22 ≤ (landL env).length) (h1 : 1 ≤ (recsB env).length) :
    execCells env (initState env) firstCells = .ok (st16 env) := by
  have h21 := landAt_elem env h22
  have hr0 := recAt0_elem env h1
  simp only [recsB] at hr0
  simp [firstCells, execCells_cons, execCells_nil, execCell_md, exbind_ok, initState,
    stepCell0, stepCell4, stepCell7, stepCell9, stepCell11, stepCell13, stepCell15,
    h21, hr0, hB, List.lookup, st16, binds15, binds4, recsB, out4]

set_option maxRecDepth 20000 in
/-- Successful evaluation of the whole notebook. -/
theorem run_ok (env : Env) (hB : bndPath ∈ env.files) (hR : refPath ∈ env.files)
    (h22 : 22 ≤ (landL env).length) (h1 : 1 ≤ (recsB env).length) :
    runNotebook env = .ok (stFinal env) := by
  rw [runNotebook, notebookCells, execCells_append, run16_ok env hB h22 h1]
  simp [lastCells, execCells_cons, execCells_nil, execCell_md, exbind_ok,
    stepCell17, hR, List.lookup, st16, binds15, binds4, stFinal,
    rowsR, recsB, out4]
  rw [stepCell19 env _ (env.shpRecords bndPath) (env.csv refPath) bndPath
    (by simp [List.lookup]) (by simp [List.lookup])]
  simp [exbind_ok]

set_option maxRecDepth 20000 in
/-- When `cf.LAND` yields at most 21 geometries, cell 7 aborts the run with
an IndexError, whatever files are present. -/
theorem run_fail_land (env : Env) (hland : (landL env).length ≤ 21) :
    execCells env (initState env) firstCells = .error .indexErr := by
  have h : (landL env)[21]? = none := List.getElem?_eq_none hland
  simp [firstCells, execCells_cons, execCells_nil, execCell_md, exbind_ok, exbind_err,
    initState, stepCell0, stepCell4, stepCell7_fail, h]

set_option maxRecDepth 20000 in
/-- When the shapefile yields no record, cell 15 aborts the run with an
IndexError. -/
theorem run_fail_rec (env : Env) (hB : bndPath ∈ env.files)
    (h22 : 22 ≤ (landL env).length) (hrec : (recsB env).length = 0) :
    execCells env (initState env) firstCells = .error .indexErr := by
  have h21 := landAt_elem env h22
  have hr : (env.shpRecords bndPath)[0]? = none := by
    have : (recsB env)[0]? = none := List.getElem?_eq_none (by omega)
    simpa [recsB] using this
  simp [firstCells, execCells_cons, execCells_nil, execCell_md, exbind_ok, exbind_err,
    initState, stepCell0, stepCell4, stepCell7, stepCell9, stepCell11, stepCell13,
    stepCell15_fail, h21, hr, hB, List.lookup]

set_option maxRecDepth 20000 in
/-- When the shapefile asset is missing, the FileNotFound error raised in
cell 13 propagates unchanged out of the whole run. -/
theorem run_fail_noShp (env : Env) (hB : bndPath ∉ env.files)
    (h22 : 22 ≤ (landL env).length) :
    runNotebook env = .error (.fileNotFound bndPath) := by
  have h21 := landAt_elem env h22
  simp [runNotebook, notebookCells, execCells_append, firstCells, lastCells,
    execCells_cons, execCells_nil, execCell_md, exbind_ok, exbind_err, initState,
    stepCell0, stepCell4, stepCell7, stepCell9, stepCell11, stepCell13_fail,
    h21, hB, List.lookup]

set_option maxRecDepth 20000 in
/-- When the CSV asset is missing, the FileNotFound error raised in cell 17
propagates unchanged out of the whole run. -/
theorem run_fail_ref (env : Env) (hB : bndPath ∈ env.files) (hR : refPath ∉ env.files)
    (h22 : 22 ≤ (landL env).length) (h1 : 1 ≤ (recsB env).length) :
    runNotebook env = .error (.fileNotFound refPath) := by
  rw [runNotebook, notebookCells, execCells_append, run16_ok env hB h22 h1]
  simp [lastCells, execCells_cons, execCells_nil, execCell_md, exbind_ok, exbind_err,
    stepCell17_fail, hR, st16]

/-- The reduced cell 15 only binds the reader. -/
theorem stepCell15NI (env : Env) (st : ExecState)
    (hb : st.binds.lookup "shapefile" = some (.str bndPath))
    (hfs : bndPath ∈ st.fs) :
    execCell env st cell15NoInspect = .ok { st with
      binds := ("shapes", .reader bndPath (env.shpRecords bndPath)) :: st.binds } := by
  simp [cell15NoInspect, execCell, execStmts, execStmt, evalExpr, FUEL, exbind_ok,
    pathOf, List.lookup, hb, hfs]

set_option maxRecDepth 20000 in
/-- Successful evaluation of the notebook without the inspection statement. -/
theorem runNI_ok (env : Env) (hB : bndPath ∈ env.files) (hR : refPath ∈ env.files)
    (h22 : 22 ≤ (landL env).length) :
    runNoInspect env = .ok (stFinalNI env) := by
  have h21 := landAt_elem env h22
  simp [runNoInspect, notebookCellsNoInspect, execCells_cons, execCells_nil,
    execCell_md, exbind_ok, initState, stepCell0, stepCell4, stepCell7, stepCell9,
    stepCell11, stepCell13, stepCell15NI, stepCell17,
    h21, hB, hR, List.lookup, stFinalNI, binds15, binds4, rowsR, recsB, out4]
  rw [stepCell19 env _ (env.shpRecords bndPath) (env.csv refPath) bndPath
    (by simp [List.lookup]) (by simp [List.lookup])]
  simp [exbind_ok]

/-- A statement never changes the filesystem the run sees. -/
theorem execStmt_fs (env : Env) (st st' : ExecState) (s : PyStmt)
    (h : execStmt env st s = .ok st') : st'.fs = st.fs := by
  cases s <;> simp only [execStmt] at h
  any_goals (injection h with h2; subst h2; rfl)
  any_goals exact Except.noConfusion h
  case assign x e =>
    cases hev : evalExpr FUEL env st e with
    | ok v => rw [hev, exbind_ok] at h; injection h with h2; subst h2; rfl
    | error er => rw [hev, exbind_err] at h; exact Except.noConfusion h
  case exprStmt e =>
    cases hev : evalExpr FUEL env st e with
    | ok v => rw [hev, exbind_ok] at h; injection h with h2; subst h2; rfl
    | error er => rw [hev, exbind_err] at h; exact Except.noConfusion h

/-- A statement list never changes the filesystem. -/
theorem execStmts_fs (env : Env) : ∀ (ss : List PyStmt) (st st' : ExecState),
    execStmts env st ss = .ok st' → st'.fs = st.fs := by
  intro ss
  induction ss with
  | nil => intro st st' h; injection h with h2; subst h2; rfl
  | cons s t ih =>
    intro st st' h
    simp only [execStmts] at h
    cases hev : execStmt env st s with
    | ok st2 => rw [hev, exbind_ok] at h; exact (ih st2 st' h).trans (execStmt_fs env st st2 s hev)
    | error er => rw [hev, exbind_err] at h; exact Except.noConfusion h

/-- A cell never changes the filesystem. -/
theorem execCell_fs (env : Env) (st st' : ExecState) (c : Cell)
    (h : execCell env st c = .ok st') : st'.fs = st.fs := by
  cases c with
  | markdown s => injection h with h2; subst h2; rfl
  | code ss => exact execStmts_fs env ss st st' h

/-- A cell list never changes the filesystem. -/
theorem execCells_fs (env : Env) : ∀ (cs : List Cell) (st st' : ExecState),
    execCells env st cs = .ok st' → st'.fs = st.fs := by
  intro cs
  induction cs with
  | nil => intro st st' h; injection h with h2; subst h2; rfl
  | cons c t ih =>
    intro st st' h
    simp only [execCells] at h
    cases hev : execCell env st c with
    | ok st2 => rw [hev, exbind_ok] at h; exact (ih st2 st' h).trans (execCell_fs env st st2 c hev)
    | error er => rw [hev, exbind_err] at h; exact Except.noConfusion h

/-- A successful run of the notebook leaves the filesystem as it found it. -/
theorem runNotebook_fs (env : Env) (st' : ExecState)
    (h : runNotebook env = .ok st') : st'.fs = env.files :=
  execCells_fs env notebookCells (initState env) st' h

/-! ### Claims -/

/-- Claim C1, counterexample: in an environment where both referenced asset
files are present but `cf.LAND` yields no geometries, evaluating the cells
in order raises an IndexError at `land_geoms[21]` — so asset presence alone
does not make every error branch unreachable. -/
theorem c1_counterexample :
    (bndPath ∈ envCex.files ∧ refPath ∈ envCex.files)
      ∧ runNotebook envCex = .error .indexErr :=
  ⟨by decide, by rfl⟩

/-- Claim C1 (corrected): evaluating the cells in their given order raises
no exception, under the preconditions that the two referenced asset files
are present AND, additionally, that `cf.LAND` yields at least 22 geometries
and the shapefile yields at least one record (the preconditions of the
indexing expressions of cells 7 and 15, which asset presence alone does not
ensure). -/
theorem c1_amended_no_exception (env : Env)
    (hB : bndPath ∈ env.files) (hR : refPath ∈ env.files)
    (h22 : 22 ≤ (landL env).length) (h1 : 1 ≤ (recsB env).length) :
    (runNotebook env).isOk = true := by
  rw [run_ok env hB hR h22 h1]; rfl

/-- Claim C1, witness: the amended claim at a concrete environment. -/
theorem c1_amended_no_exception_witness :
    (bndPath ∈ envW.files ∧ refPath ∈ envW.files ∧ 22 ≤ (landL envW).length
      ∧ 1 ≤ (recsB envW).length) ∧ (runNotebook envW).isOk = true :=
  ⟨⟨by decide, by decide, by decide, by decide⟩,
   c1_amended_no_exception envW (by decide) (by decide) (by decide) (by decide)⟩

/-- Claim C2: the notebook references exactly two local data assets — the
boundaries shapefile and the referendum CSV —, its single `from_records`
call passes the string literal `code` as the `on` argument, and the
modelled merge pairs a record with a row only when their `code` values
agree, for every record that is merged. -/
theorem c2_assets_and_merge_on_code :
    assetStrings = [bndPath, refPath]
    ∧ fromRecordsCalls.length = 1
    ∧ fromRecordsCalls.all (fun pc => isStrLitCode (kwLookup pc.2 "on")) = true
    ∧ (∀ (recs : List ShpRecord) (rows : List Row) (pr : ShpRecord × Row),
        pr ∈ mergeOn recs rows "code" →
        List.lookup "code" pr.2 = List.lookup "code" pr.1.attrs) := by
  refine ⟨by decide, by rfl, by rfl, ?_⟩
  intro recs rows pr h
  rcases List.mem_filterMap.mp h with ⟨r, _, hmap⟩
  rcases Option.map_eq_some'.mp hmap with ⟨row, hfind, heq⟩
  have hp := List.find?_some hfind
  have hlk : List.lookup "code" row = List.lookup "code" r.attrs := eq_of_beq hp
  subst heq
  simpa using hlk

/-- Claim C2, witness: a merged record/row pair at concrete inputs, and its
agreeing code values. -/
theorem c2_assets_and_merge_on_code_witness :
    ((⟨1, [("code", "A1")]⟩, [("code", "A1")])
        ∈ mergeOn [⟨1, [("code", "A1")]⟩] [[("code", "A1")]] "code")
    ∧ List.lookup "code" ([("code", "A1")] : Row)
        = List.lookup "code" (ShpRecord.mk 1 [("code", "A1")]).attrs :=
  ⟨by decide,
   c2_assets_and_merge_on_code.2.2.2 [⟨1, [("code", "A1")]⟩] [[("code", "A1")]]
     (⟨1, [("code", "A1")]⟩, [("code", "A1")]) (by decide)⟩

/-- Claim C3: the notebook defines no function or class of its own, and the
calls realising the operations it performs — geometry iteration, shapefile
reading, CRS projection, merging records with a dataset, and the wrapper
constructions whose display renders the choropleth — all occur in the
notebook and are all rooted in the import aliases of the external plotting,
geometry and cartographic libraries. -/
theorem c3_all_operations_external :
    definesFuncOrClass = false
    ∧ operationCalls.all (notebookCalls.contains ·) = true
    ∧ operationCalls.all externallyRooted = true :=
  ⟨by rfl, by rfl, by rfl⟩

/-- Claim C4: no statement of the notebook is a try/except (nor any other
handler), and the exception raised by the underlying library propagates
unchanged out of the run: with the shapefile missing the run is exactly the
FileNotFound error of cell 13, and with the CSV missing it is exactly the
FileNotFound error of cell 17. -/
theorem c4_no_error_handling :
    notebookStmts.any isTryStmt = false
    ∧ (∀ env : Env, bndPath ∉ env.files → 22 ≤ (landL env).length →
        runNotebook env = .error (.fileNotFound bndPath))
    ∧ (∀ env : Env, bndPath ∈ env.files → refPath ∉ env.files →
        22 ≤ (landL env).length → 1 ≤ (recsB env).length →
        runNotebook env = .error (.fileNotFound refPath)) :=
  ⟨by rfl,
   fun env hB h22 => run_fail_noShp env hB h22,
   fun env hB hR h22 h1 => run_fail_ref env hB hR h22 h1⟩

/-- Claim C4, witness: the two propagation statements at concrete
environments with a missing shapefile and a missing CSV. -/
theorem c4_no_error_handling_witness :
    (bndPath ∉ envNoShp.files ∧ 22 ≤ (landL envNoShp).length)
    ∧ runNotebook envNoShp = .error (.fileNotFound bndPath)
    ∧ runNotebook envNoCsv = .error (.fileNotFound refPath) :=
  ⟨⟨by decide, by decide⟩,
   c4_no_error_handling.2.1 envNoShp (by decide) (by decide),
   c4_no_error_handling.2.2 envNoCsv (by decide) (by decide) (by decide) (by decide)⟩

/-- Claim C5, counterexample: the statement loading the referendum CSV (the
first statement of cell 17) is neither an import, nor a construction of a
wrapper object around library-provided geometries, nor a rendering
statement — so not every code cell does one of exactly those three
things. -/
theorem c5_counterexample :
    (cellStmts cell17).head? = some readCsvStmt
    ∧ claimCatC5 readCsvStmt = false
    ∧ notebookStmts.all claimCatC5 = false :=
  ⟨by rfl, by rfl, by rfl⟩

/-- Claim C5 (corrected): every statement of every code cell either imports
external libraries, constructs a wrapper object around library-provided
geometries, renders (a displayed bare expression or an option magic), or —
the activity the claim omits — binds to a variable an asset path literal or
data loaded through a library call; and the cells are a linear sequence:
every statement is straight-line code with no branching construct. -/
theorem c5_amended_cell_categories :
    notebookStmts.all (fun s => claimCatC5 s || bindsLoadedData s) = true
    ∧ notebookStmts.all straightLine = true :=
  ⟨by rfl, by rfl⟩

/-- Claim C6: no call of the notebook has a name component that writes to
the filesystem or any external sink, the only file-path literals it
references are the two read assets, and a completed run leaves the
filesystem exactly as it found it. -/
theorem c6_no_persisted_state :
    notebookCalls.all (fun p => p.all (fun c => !(writeNames.contains c))) = true
    ∧ assetStrings = [bndPath, refPath]
    ∧ (∀ (env : Env) (st' : ExecState),
        runNotebook env = .ok st' → st'.fs = env.files) :=
  ⟨by rfl, by decide, fun env st' h => runNotebook_fs env st' h⟩

/-- Claim C6, witness: the completed run at a concrete environment leaves
its filesystem unchanged. -/
theorem c6_no_persisted_state_witness :
    runNotebook envW = .ok (stFinal envW) ∧ (stFinal envW).fs = envW.files :=
  ⟨by rfl, c6_no_persisted_state.2.2 envW (stFinal envW) (by rfl)⟩

/-- Claim C7: no call of the notebook names a concurrency primitive
(threads, async, multiprocessing, futures, locks), and execution is
sequential: evaluating a list of cells is exactly evaluating the first cell
and then, on success, the rest — a single thread of control with no
interleaving. -/
theorem c7_sequential_execution :
    notebookCalls.all (fun p => p.all (fun c => !(concurrencyNames.contains c))) = true
    ∧ (∀ (env : Env) (st : ExecState) (c : Cell) (cs : List Cell),
        execCells env st (c :: cs)
          = (execCell env st c) >>= fun st2 => execCells env st2 cs) :=
  ⟨by rfl, fun env st c cs => rfl⟩

/-- Claim C8: given the shapefile asset, the run of the cells through cell
15 succeeds exactly when `cf.LAND` yields at least 22 geometries and the
shapefile yields at least one record (so the two indexing expressions are
in bounds only under those preconditions, and under them the out-of-bounds
branches are unreachable); and then cell 9 displays a Shape wrapping
exactly the element `land_geoms[21]` displayed by cell 7. -/
theorem c8_index_bounds (env : Env) (hB : bndPath ∈ env.files) :
    ((execCells env (initState env) firstCells).isOk = true
      ↔ (22 ≤ (landL env).length ∧ 1 ≤ (recsB env).length))
    ∧ (22 ≤ (landL env).length → 1 ≤ (recsB env).length →
        execCells env (initState env) firstCells = .ok (st16 env)
        ∧ (st16 env).outputs[2]? = some (.geom (landAt env))
        ∧ (st16 env).outputs[3]?
            = some (.shapeV ⟨landAt env, some "PlateCarree", some "Australia"⟩)) := by
  constructor
  · constructor
    · intro hOk
      rcases Nat.lt_or_ge (landL env).length 22 with hlt | h22
      · rw [run_fail_land env (by omega)] at hOk
        exact absurd hOk (by decide)
      · rcases Nat.eq_zero_or_pos (recsB env).length with h0 | h1
        · rw [run_fail_rec env hB h22 h0] at hOk
          exact absurd hOk (by decide)
        · exact ⟨h22, h1⟩
    · rintro ⟨h22, h1⟩
      rw [run16_ok env hB h22 h1]
      rfl
  · intro h22 h1
    exact ⟨run16_ok env hB h22 h1, rfl, rfl⟩

/-- Claim C8, witness: the equivalence and the displayed values at a
concrete environment. -/
theorem c8_index_bounds_witness :
    (bndPath ∈ envW.files ∧ 22 ≤ (landL envW).length ∧ 1 ≤ (recsB envW).length)
    ∧ execCells envW (initState envW) firstCells = .ok (st16 envW)
    ∧ (st16 envW).outputs[3]?
        = some (.shapeV ⟨landAt envW, some "PlateCarree", some "Australia"⟩) :=
  ⟨⟨by decide, by decide, by decide⟩,
   ((c8_index_bounds envW (by decide)).2 (by decide) (by decide)).1,
   ((c8_index_bounds envW (by decide)).2 (by decide) (by decide)).2.2⟩

/-- Claim C9: for every list of geometries bound to `land_geoms`, the
`hv.NdOverlay` built by the dict comprehension of cell 11 evaluates to an
overlay of exactly `n` Shape entries, keyed by the distinct integers `0`
through `n - 1` in order, where the entry at position `i` carries key `i`
and wraps the `i`-th geometry — no geometry is dropped or duplicated by key
collision. -/
theorem c9_ndoverlay_enumeration (env : Env) (st : ExecState) (gs : List Nat)
    (hb : st.binds.lookup "land_geoms" = some (.geomList gs)) :
    evalExpr FUEL env st cell11Expr = .ok (.ndoverlay (shapeEntries gs))
    ∧ (shapeEntries gs).length = gs.length
    ∧ (shapeEntries gs).map Prod.fst = List.range gs.length
    ∧ ((shapeEntries gs).map Prod.fst).Nodup
    ∧ (∀ i : Nat, (shapeEntries gs)[i]?
        = (gs[i]?).map fun g => (i, (⟨g, some "PlateCarree", none⟩ : ShapeData))) := by
  have hmapfst : (shapeEntries gs).map Prod.fst = List.range gs.length := by
    have hcomp : (Prod.fst ∘ fun q : Nat × Nat =>
        ((q.1 : Nat), (⟨q.2, some "PlateCarree", none⟩ : ShapeData))) = Prod.fst := rfl
    rw [shapeEntries, List.map_map, hcomp]
    exact List.enum_map_fst gs
  refine ⟨?_, by simp [shapeEntries, List.enum_length], hmapfst,
    hmapfst ▸ List.nodup_range gs.length, ?_⟩
  · have hbody := comp_body_eval 17 env st
    simp [cell11Expr, cell11Comp, evalExpr, FUEL, exbind_ok, pathOf, hb,
      cell11Body] at hbody ⊢
    simp [hbody, mapME_pure, shapeEntries, exbind_ok]
  · intro i
    simp [shapeEntries, List.getElem?_map, List.getElem?_enum, Option.map_map]
    rfl

/-- Claim C9, witness: the overlay of a concrete two-geometry list. -/
theorem c9_ndoverlay_enumeration_witness :
    (List.lookup "land_geoms" stW.binds = some (.geomList [5, 7]))
    ∧ evalExpr FUEL envW stW cell11Expr = .ok (.ndoverlay (shapeEntries [5, 7]))
    ∧ (shapeEntries [5, 7]).length = ([5, 7] : List Nat).length
    ∧ (shapeEntries [5, 7])[1]?
        = (([5, 7] : List Nat)[1]?).map fun g => (1, (⟨g, some "PlateCarree", none⟩ : ShapeData)) :=
  ⟨by rfl,
   (c9_ndoverlay_enumeration envW stW [5, 7] (by rfl)).1,
   (c9_ndoverlay_enumeration envW stW [5, 7] (by rfl)).2.1,
   (c9_ndoverlay_enumeration envW stW [5, 7] (by rfl)).2.2.2.2 1⟩

/-- Claim C10: each call of `shapes.records()` yields a fresh iterator over
every record of the shapefile (the Reader binding is a pure value and the
exhausted iterator is not it), the inspection statement of cell 15 changes
nothing but the displayed outputs, and the run with the inspection
statement and the run without it both succeed and produce the same final
choropleth from the same `shapes` and `referendum` bindings. -/
theorem c10_records_reiteration (env : Env) (st : ExecState) (p : String)
    (rs : List ShpRecord) (r0 : ShpRecord) :
    (st.binds.lookup "shapes" = some (.reader p rs) →
      evalExpr FUEL env st recordsCallExpr = .ok (.recordIter rs))
    ∧ (st.binds.lookup "shapes" = some (.reader p rs) → rs[0]? = some r0 →
      execStmt env st inspectStmt
        = .ok { st with outputs := st.outputs ++ [.record r0] })
    ∧ (bndPath ∈ env.files → refPath ∈ env.files → 22 ≤ (landL env).length →
        1 ≤ (recsB env).length →
      runNotebook env = .ok (stFinal env)
      ∧ runNoInspect env = .ok (stFinalNI env)
      ∧ (stFinal env).outputs.getLast?
          = some (.choropleth (mergeOn (recsB env) (rowsR env) "code"))
      ∧ (stFinalNI env).outputs.getLast?
          = some (.choropleth (mergeOn (recsB env) (rowsR env) "code"))
      ∧ (stFinal env).binds = (stFinalNI env).binds) := by
  refine ⟨?_, ?_, ?_⟩
  · intro h
    simp [recordsCallExpr, evalExpr, FUEL, pathOf, h]
  · intro h hr
    simp [inspectStmt, execStmt, evalExpr, FUEL, exbind_ok, pathOf, h, hr]
  · intro hB hR h22 h1
    exact ⟨run_ok env hB hR h22 h1, runNI_ok env hB hR h22, rfl, rfl, rfl⟩

/-- Claim C10, witness: iterator freshness, the output-only effect of the
inspection statement, and the equality of the two runs, at concrete
inputs. -/
theorem c10_records_reiteration_witness :
    (List.lookup "shapes" stW.binds = some (.reader bndPath [⟨3, [("code", "A1")]⟩]))
    ∧ evalExpr FUEL envW stW recordsCallExpr = .ok (.recordIter [⟨3, [("code", "A1")]⟩])
    ∧ execStmt envW stW inspectStmt
        = .ok { stW with outputs := stW.outputs ++ [.record ⟨3, [("code", "A1")]⟩] }
    ∧ runNotebook envW = .ok (stFinal envW)
    ∧ runNoInspect envW = .ok (stFinalNI envW)
    ∧ (stFinal envW).binds = (stFinalNI envW).binds :=
  ⟨by rfl,
   (c10_records_reiteration envW stW bndPath [⟨3, [("code", "A1")]⟩]
     ⟨3, [("code", "A1")]⟩).1 (by rfl),
   (c10_records_reiteration envW stW bndPath [⟨3, [("code", "A1")]⟩]
     ⟨3, [("code", "A1")]⟩).2.1 (by rfl) (by rfl),
   ((c10_records_reiteration envW stW bndPath [⟨3, [("code", "A1")]⟩]
     ⟨3, [("code", "A1")]⟩).2.2 (by decide) (by decide) (by decide) (by decide)).1,
   ((c10_records_reiteration envW stW bndPath [⟨3, [("code", "A1")]⟩]
     ⟨3, [("code", "A1")]⟩).2.2 (by decide) (by decide) (by decide) (by decide)).2.1,
   ((c10_records_reiteration envW stW bndPath [⟨3, [("code", "A1")]⟩]
     ⟨3, [("code", "A1")]⟩).2.2 (by decide) (by decide) (by decide) (by decide)).2.2.2.2⟩
